import Mathlib

/-!
# Verification of the LSM6DSL sensor-acquisition subsystem

Shallow embedding of the sensor acquisition core of the firmware:
the LSM6DSL register driver (`lsm6dsl.c`) and the acquisition
scheduler (`sensor_acq.c`).  C `float` values are modelled as exact
rationals (`ℚ`); all claims settled here concern table selection,
control flow and exact decimal constants, which the rational model
preserves.  Bus transactions are modelled by environments recording
the outcome of each register read/write in program order, since the
hardware bus is external to the core.
-/

namespace RTOS

/-- HAL status codes (`HAL_StatusTypeDef` from the STM32 HAL). -/
inductive HAL_Status where
  | HAL_OK
  | HAL_ERROR
  | HAL_BUSY
  | HAL_TIMEOUT
  deriving DecidableEq, Repr

open HAL_Status

/-! ## Register and configuration constants (`lsm6dsl.h`) -/

def LSM6DSL_WHO_AM_I_VALUE : Nat := 0x6A

def LSM6DSL_XL_FS_2G  : Nat := 0x00
def LSM6DSL_XL_FS_16G : Nat := 0x04
def LSM6DSL_XL_FS_4G  : Nat := 0x08
def LSM6DSL_XL_FS_8G  : Nat := 0x0C

def LSM6DSL_GY_FS_125_DPS  : Nat := 0x02
def LSM6DSL_GY_FS_250_DPS  : Nat := 0x00
def LSM6DSL_GY_FS_500_DPS  : Nat := 0x04
def LSM6DSL_GY_FS_1000_DPS : Nat := 0x08
def LSM6DSL_GY_FS_2000_DPS : Nat := 0x0C

def LSM6DSL_STATUS_XLDA : Nat := 0x01
def LSM6DSL_STATUS_GDA  : Nat := 0x02

/-! ## Driver state

The driver's only mutable state is the pair of cached sensitivity
statics `accel_sensitivity` / `gyro_sensitivity` in `lsm6dsl.c`. -/

structure DriverState where
  accel_sensitivity : ℚ
  gyro_sensitivity : ℚ
  deriving DecidableEq, Repr

/-- The statics' initial values (`lsm6dsl.c` lines 23-24):
`0.061f` mg/LSB for ±2g and `8.75f` mdps/LSB for ±250dps. -/
def initDriverState : DriverState :=
  { accel_sensitivity := 61/1000, gyro_sensitivity := 35/4 }

/-- `LSM6DSL_UpdateSensitivity` (`lsm6dsl.c` lines 278-320): two switch
statements over the full-scale codes, each with a default arm. -/
def LSM6DSL_UpdateSensitivity (accel_fs gyro_fs : Nat) (s : DriverState) :
    DriverState :=
  let a : ℚ :=
    if accel_fs = LSM6DSL_XL_FS_2G then 61/1000
    else if accel_fs = LSM6DSL_XL_FS_4G then 122/1000
    else if accel_fs = LSM6DSL_XL_FS_8G then 244/1000
    else if accel_fs = LSM6DSL_XL_FS_16G then 488/1000
    else 61/1000
  let g : ℚ :=
    if gyro_fs = LSM6DSL_GY_FS_125_DPS then 4375/1000
    else if gyro_fs = LSM6DSL_GY_FS_250_DPS then 875/100
    else if gyro_fs = LSM6DSL_GY_FS_500_DPS then 1750/100
    else if gyro_fs = LSM6DSL_GY_FS_1000_DPS then 35
    else if gyro_fs = LSM6DSL_GY_FS_2000_DPS then 70
    else 875/100
  { s with accel_sensitivity := a, gyro_sensitivity := g }

/-- Sensor configuration (`LSM6DSL_Config_t`). -/
structure LSM6DSL_Config where
  accel_odr : Nat
  accel_fs : Nat
  gyro_odr : Nat
  gyro_fs : Nat
  fifo_enable : Nat
  deriving DecidableEq, Repr

/-- Outcomes of the bus transactions issued by `LSM6DSL_Init`, in program
order: the WHO_AM_I read (status and byte read), the soft-reset write,
and the three control-register writes. -/
structure InitBus where
  whoAmIStatus : HAL_Status
  whoAmIValue : Nat
  softResetStatus : HAL_Status
  ctrl1Status : HAL_Status
  ctrl2Status : HAL_Status
  ctrl3Status : HAL_Status
  deriving DecidableEq, Repr

/-- `LSM6DSL_Init` (`lsm6dsl.c` lines 38-84): checks the device id
(returning `HAL_ERROR` both when the id read fails and when the value
mismatches), soft-resets, writes CTRL1_XL, CTRL2_G, CTRL3_C, and only
after all of these succeed recomputes the cached sensitivities. -/
def LSM6DSL_Init (bus : InitBus) (config : LSM6DSL_Config)
    (s : DriverState) : HAL_Status × DriverState :=
  if bus.whoAmIStatus ≠ HAL_OK ∨ bus.whoAmIValue ≠ LSM6DSL_WHO_AM_I_VALUE then
    (HAL_ERROR, s)
  else if bus.softResetStatus ≠ HAL_OK then (bus.softResetStatus, s)
  else if bus.ctrl1Status ≠ HAL_OK then (bus.ctrl1Status, s)
  else if bus.ctrl2Status ≠ HAL_OK then (bus.ctrl2Status, s)
  else if bus.ctrl3Status ≠ HAL_OK then (bus.ctrl3Status, s)
  else (HAL_OK, LSM6DSL_UpdateSensitivity config.accel_fs config.gyro_fs s)

/-! ## Spec-side sensitivity tables (for the refinement statement of C1)

These two definitions follow the SPEC's lookup-table wording, with the
amended default for unrecognized gyroscope codes. -/

/-- Spec table: accelerometer mg/LSB by full-scale code; unrecognized
codes yield the ±2g coefficient. -/
def specAccelSens (accel_fs : Nat) : ℚ :=
  if accel_fs = LSM6DSL_XL_FS_2G then 61/1000
  else if accel_fs = LSM6DSL_XL_FS_4G then 122/1000
  else if accel_fs = LSM6DSL_XL_FS_8G then 244/1000
  else if accel_fs = LSM6DSL_XL_FS_16G then 488/1000
  else 61/1000

/-- Spec table (amended): gyroscope mdps/LSB by full-scale code;
unrecognized codes yield the ±250 dps coefficient 8.75 (the code's
default arm), not the narrowest-range 4.375. -/
def specGyroSens (gyro_fs : Nat) : ℚ :=
  if gyro_fs = LSM6DSL_GY_FS_125_DPS then 4375/1000
  else if gyro_fs = LSM6DSL_GY_FS_250_DPS then 875/100
  else if gyro_fs = LSM6DSL_GY_FS_500_DPS then 1750/100
  else if gyro_fs = LSM6DSL_GY_FS_1000_DPS then 35
  else if gyro_fs = LSM6DSL_GY_FS_2000_DPS then 70
  else 875/100

/-! ## Sample decoding (`LSM6DSL_ReadData`) -/

/-- C cast `(int16_t)((hi << 8) | lo)` on two `uint8_t` bytes:
two's-complement reinterpretation of the 16-bit little-endian value. -/
def toInt16 (lo hi : Nat) : Int :=
  let v := (hi % 256) * 256 + lo % 256
  if v < 32768 then (v : Int) else (v : Int) - 65536

/-- Output record `LSM6DSL_Data_t` (floats as exact rationals). -/
structure LSM6DSL_Data where
  accel_x : ℚ
  accel_y : ℚ
  accel_z : ℚ
  gyro_x : ℚ
  gyro_y : ℚ
  gyro_z : ℚ
  temperature : ℚ
  timestamp : Nat
  data_ready : Bool
  deriving DecidableEq, Repr

/-- Outcomes of the bus transactions issued by `LSM6DSL_ReadData`: the
STATUS_REG read (status and byte), then the 14-byte burst read starting
at OUT_TEMP_L (status and bytes), plus the tick-count timestamp. -/
structure ReadBus where
  statusReadStatus : HAL_Status
  statusReg : Nat
  burstStatus : HAL_Status
  raw : Fin 14 → Nat
  tick : Nat

/-- `LSM6DSL_ReadData` (`lsm6dsl.c` lines 101-152).  Takes the caller's
`data` record (the C function writes through a pointer, leaving fields
it does not reach at their prior values).  Decodes the burst as
temperature low/high, gyro X/Y/Z low/high pairs, accel X/Y/Z low/high
pairs; converts with the cached sensitivities, gravity 9.80665 and the
degree-to-radian factor 3.14159/180. -/
def LSM6DSL_ReadData (bus : ReadBus) (s : DriverState)
    (data : LSM6DSL_Data) : HAL_Status × LSM6DSL_Data :=
  if bus.statusReadStatus ≠ HAL_OK then (bus.statusReadStatus, data)
  else
    let ready :=
      bus.statusReg % 256 &&& (LSM6DSL_STATUS_XLDA ||| LSM6DSL_STATUS_GDA) ≠ 0
    let data := { data with data_ready := ready }
    if !ready then (HAL_OK, data)
    else if bus.burstStatus ≠ HAL_OK then (bus.burstStatus, data)
    else
      let raw_temp := toInt16 (bus.raw 0) (bus.raw 1)
      let raw_gyro_x := toInt16 (bus.raw 2) (bus.raw 3)
      let raw_gyro_y := toInt16 (bus.raw 4) (bus.raw 5)
      let raw_gyro_z := toInt16 (bus.raw 6) (bus.raw 7)
      let raw_accel_x := toInt16 (bus.raw 8) (bus.raw 9)
      let raw_accel_y := toInt16 (bus.raw 10) (bus.raw 11)
      let raw_accel_z := toInt16 (bus.raw 12) (bus.raw 13)
      (HAL_OK,
        { data with
          temperature := 25 + (raw_temp : ℚ) / 256
          accel_x := (raw_accel_x : ℚ) * s.accel_sensitivity * (980665/100000) / 1000
          accel_y := (raw_accel_y : ℚ) * s.accel_sensitivity * (980665/100000) / 1000
          accel_z := (raw_accel_z : ℚ) * s.accel_sensitivity * (980665/100000) / 1000
          gyro_x := (raw_gyro_x : ℚ) * s.gyro_sensitivity * (314159/100000) / (180 * 1000)
          gyro_y := (raw_gyro_y : ℚ) * s.gyro_sensitivity * (314159/100000) / (180 * 1000)
          gyro_z := (raw_gyro_z : ℚ) * s.gyro_sensitivity * (314159/100000) / (180 * 1000)
          timestamp := bus.tick })

/-! ## `LSM6DSL_Enable` -/

/-- Outcomes of the two mode-register writes issued by `LSM6DSL_Enable`. -/
structure EnableBus where
  ctrl1Status : HAL_Status
  ctrl2Status : HAL_Status
  deriving DecidableEq, Repr

/-- `LSM6DSL_Enable` (`lsm6dsl.c` lines 179-205): writes CTRL1_XL then
CTRL2_G (fixed on-configuration or the power-down codes); it touches no
driver static, so the `DriverState` passes through unchanged. -/
def LSM6DSL_Enable (bus : EnableBus) (en : Bool) (s : DriverState) :
    HAL_Status × DriverState :=
  match en with
  | true =>
    if bus.ctrl1Status ≠ HAL_OK then (bus.ctrl1Status, s)
    else (bus.ctrl2Status, s)
  | false =>
    if bus.ctrl1Status ≠ HAL_OK then (bus.ctrl1Status, s)
    else (bus.ctrl2Status, s)

/-! ## Acquisition scheduler (`sensor_acq.c`) -/

def SENSOR_MAX_RETRY_COUNT : Nat := 3

/-- Lifecycle states (`SensorAcqState_t`). -/
inductive SensorAcqState where
  | SENSOR_ACQ_INIT
  | SENSOR_ACQ_RUNNING
  | SENSOR_ACQ_ERROR
  | SENSOR_ACQ_STOPPED
  deriving DecidableEq, Repr

open SensorAcqState

/-- `SensorAcqStats_t`: the module-wide statistics struct `xSensorStats`. -/
structure SensorAcqStats where
  total_samples : Nat
  error_count : Nat
  last_sample_time : Nat
  sample_rate : ℚ
  state : SensorAcqState
  deriving DecidableEq, Repr

/-- Module state of `sensor_acq.c` relevant to the task: the statistics
struct, the `retry_count` local persisting across loop iterations, the
`ucSensorEnabled` flag, and the two function statics of
`SensorAcq_UpdateStats` (`last_stats_update`, `sample_count_in_period`). -/
structure TaskState where
  stats : SensorAcqStats
  retry_count : Nat
  enabled : Bool
  last_stats_update : Nat
  sample_count_in_period : Nat
  deriving DecidableEq, Repr

/-- `SensorAcq_UpdateStats` (`sensor_acq.c`): bumps `total_samples`,
records the sample timestamp, and at each rolling 1-second window close
recomputes `sample_rate`.  Tick arithmetic is `uint32_t`, hence the
explicit `% 2^32`. -/
def SensorAcq_UpdateStats (sample_time : Nat) (t : TaskState) : TaskState :=
  let stats := { t.stats with
    total_samples := t.stats.total_samples + 1
    last_sample_time := sample_time }
  let cnt := t.sample_count_in_period + 1
  let elapsed : Nat := (sample_time + 2^32 - t.last_stats_update % 2^32) % 2^32
  if elapsed ≥ 1000 then
    { t with
      stats := { stats with sample_rate := (cnt : ℚ) * 1000 / (elapsed : ℚ) }
      last_stats_update := sample_time
      sample_count_in_period := 0 }
  else
    { t with stats := stats, sample_count_in_period := cnt }

/-- `SensorAcq_Init` (`sensor_acq.c` lines 231-259) as it acts on the
module state: `memset`s the whole statistics struct to zero, sets the
state to `SENSOR_ACQ_INIT`, runs `LSM6DSL_Init` (whose outcome the
environment supplies as `initStatus`), and on failure sets the state to
`SENSOR_ACQ_ERROR` and propagates the status. -/
def SensorAcq_Init (initStatus : HAL_Status) (t : TaskState) :
    HAL_Status × TaskState :=
  let stats0 : SensorAcqStats :=
    { total_samples := 0, error_count := 0, last_sample_time := 0
      sample_rate := 0, state := SENSOR_ACQ_INIT }
  if initStatus = HAL_OK then
    (HAL_OK, { t with stats := stats0 })
  else
    (initStatus, { t with stats := { stats0 with state := SENSOR_ACQ_ERROR } })

/-- Per-cycle environment for one iteration of the `SensorAcqTask` loop:
the cycle-start tick, the outcome of the IMU read chain (`LSM6DSL_ReadData`;
the pressure/humidity stubs always return `HAL_OK`), whether `xQueueSend`
succeeded, and the outcome of `LSM6DSL_Init` should a reinitialization be
attempted this cycle. -/
structure CycleEnv where
  time : Nat
  imuStatus : HAL_Status
  enqueueOk : Bool
  reinitStatus : HAL_Status
  deriving DecidableEq, Repr

/-- One iteration of the `SensorAcqTask` main loop (`sensor_acq.c` lines
307-360).  When enabled: on a fully successful read chain, reset
`retry_count`, count a failed enqueue as one error, and update the
statistics; on failure, bump `retry_count` and `error_count`, and when
`retry_count` reaches 3, set state to `SENSOR_ACQ_ERROR`, zero
`retry_count`, and attempt `SensorAcq_Init` immediately — success sets
the state to `SENSOR_ACQ_RUNNING`. -/
def sensorAcqCycle (env : CycleEnv) (t : TaskState) : TaskState :=
  if t.enabled then
    if env.imuStatus = HAL_OK then
      let t := { t with retry_count := 0 }
      let t :=
        if env.enqueueOk then t
        else { t with stats := { t.stats with error_count := t.stats.error_count + 1 } }
      SensorAcq_UpdateStats env.time t
    else
      let t := { t with
        retry_count := t.retry_count + 1
        stats := { t.stats with error_count := t.stats.error_count + 1 } }
      if t.retry_count ≥ SENSOR_MAX_RETRY_COUNT then
        let t := { t with
          stats := { t.stats with state := SENSOR_ACQ_ERROR }
          retry_count := 0 }
        let (st, t) := SensorAcq_Init env.reinitStatus t
        if st = HAL_OK then
          { t with stats := { t.stats with state := SENSOR_ACQ_RUNNING } }
        else t
      else t
  else t

/-- `SensorAcq_ResetStats` (`sensor_acq.c` lines 483-490): zeros
`total_samples`, `error_count` and `sample_rate` inside a critical
section; it touches no other field. -/
def SensorAcq_ResetStats (s : SensorAcqStats) : SensorAcqStats :=
  { s with total_samples := 0, error_count := 0, sample_rate := 0 }

/-- `SensorAcq_GetStats` (`sensor_acq.c` lines 470-477): guarded by a
`NULL` check; the first component is what was written through the
pointer (`none` when nothing was), the second the statistics state
afterward. -/
def SensorAcq_GetStats (dest : Option SensorAcqStats)
    (s : SensorAcqStats) : Option SensorAcqStats × SensorAcqStats :=
  match dest with
  | none => (none, s)
  | some _ => (some s, s)

/-! ## Theorems -/

/-- C1 counterexample: the claim says every gyroscope full-scale code
outside the table yields the narrowest range's coefficient 4.375 mdps/LSB;
but for the unrecognized code 0x01 the driver's default arm selects
8.75 mdps/LSB (the ±250 dps coefficient), not 4.375. -/
theorem C1_gyro_default_counterexample :
    (LSM6DSL_UpdateSensitivity 0x00 0x01 initDriverState).gyro_sensitivity = 875/100 ∧
    (875 : ℚ)/100 ≠ 4375/1000 := by
  constructor
  · rfl
  · norm_num

/-- C1 amended: for every accelerometer and gyroscope full-scale code, a
fully successful `LSM6DSL_Init` caches exactly the documented table
coefficients (accelerometer 2g→0.061, 4g→0.122, 8g→0.244, 16g→0.488
mg/LSB; gyroscope 125→4.375, 250→8.75, 500→17.5, 1000→35, 2000→70
mdps/LSB), and every code not in the table yields the accelerometer ±2g
coefficient 0.061 and the gyroscope ±250 dps coefficient 8.75 (the
power-on default), rather than failing. -/
theorem C1_init_sets_sensitivity_tables (bus : InitBus)
    (config : LSM6DSL_Config) (s : DriverState)
    (h1 : bus.whoAmIStatus = HAL_OK)
    (h2 : bus.whoAmIValue = LSM6DSL_WHO_AM_I_VALUE)
    (h3 : bus.softResetStatus = HAL_OK) (h4 : bus.ctrl1Status = HAL_OK)
    (h5 : bus.ctrl2Status = HAL_OK) (h6 : bus.ctrl3Status = HAL_OK) :
    LSM6DSL_Init bus config s =
      (HAL_OK, { s with accel_sensitivity := specAccelSens config.accel_fs
                        gyro_sensitivity := specGyroSens config.gyro_fs }) := by
  simp [LSM6DSL_Init, LSM6DSL_UpdateSensitivity, specAccelSens, specGyroSens,
    h1, h2, h3, h4, h5, h6]

/-- C1 witness: a concrete successful `LSM6DSL_Init` with the ±4g
accelerometer code and an unrecognized gyroscope code 0x05 caches
0.122 mg/LSB and the default 8.75 mdps/LSB. -/
theorem C1_init_sets_sensitivity_tables_witness :
    LSM6DSL_Init
        { whoAmIStatus := HAL_OK, whoAmIValue := 0x6A
          softResetStatus := HAL_OK, ctrl1Status := HAL_OK
          ctrl2Status := HAL_OK, ctrl3Status := HAL_OK }
        { accel_odr := 0x40, accel_fs := 0x08, gyro_odr := 0x40
          gyro_fs := 0x05, fifo_enable := 0 }
        initDriverState =
      (HAL_OK, { accel_sensitivity := 122/1000, gyro_sensitivity := 875/100 }) := by
  have h := C1_init_sets_sensitivity_tables
    { whoAmIStatus := HAL_OK, whoAmIValue := 0x6A
      softResetStatus := HAL_OK, ctrl1Status := HAL_OK
      ctrl2Status := HAL_OK, ctrl3Status := HAL_OK }
    { accel_odr := 0x40, accel_fs := 0x08, gyro_odr := 0x40
      gyro_fs := 0x05, fifo_enable := 0 }
    initDriverState rfl rfl rfl rfl rfl rfl
  simpa [specAccelSens, specGyroSens, LSM6DSL_XL_FS_2G, LSM6DSL_XL_FS_4G,
    LSM6DSL_XL_FS_8G, LSM6DSL_XL_FS_16G, LSM6DSL_GY_FS_125_DPS,
    LSM6DSL_GY_FS_250_DPS, LSM6DSL_GY_FS_500_DPS, LSM6DSL_GY_FS_1000_DPS,
    LSM6DSL_GY_FS_2000_DPS, initDriverState] using h

/-- C5 counterexample: the claim says `SensorAcq_ResetStats` zeros the
timestamp of the last sample; on a statistics state with
`last_sample_time = 7` the reset leaves it at 7. -/
theorem C5_reset_counterexample :
    (SensorAcq_ResetStats
        { total_samples := 9, error_count := 2, last_sample_time := 7
          sample_rate := 5, state := SensorAcqState.SENSOR_ACQ_RUNNING
        }).last_sample_time = 7 ∧ (7 : Nat) ≠ 0 := by
  exact ⟨rfl, by decide⟩

/-- C5 amended: `SensorAcq_ResetStats` zeros the total-sample counter,
the error counter and the measured sample rate, and leaves the
last-sample timestamp and the lifecycle state unchanged. -/
theorem C5_reset_stats (s : SensorAcqStats) :
    (SensorAcq_ResetStats s).total_samples = 0 ∧
    (SensorAcq_ResetStats s).error_count = 0 ∧
    (SensorAcq_ResetStats s).sample_rate = 0 ∧
    (SensorAcq_ResetStats s).last_sample_time = s.last_sample_time ∧
    (SensorAcq_ResetStats s).state = s.state := by
  exact ⟨rfl, rfl, rfl, rfl, rfl⟩

/-- C6 counterexample: a failed identity-register read (bus timeout) and
a successful read of a wrong identity byte (0x00) both make
`LSM6DSL_Init` return the same status `HAL_ERROR`, so the two conditions
are not distinguishable at the return value. -/
theorem C6_identity_counterexample :
    (LSM6DSL_Init
        { whoAmIStatus := HAL_TIMEOUT, whoAmIValue := 0
          softResetStatus := HAL_OK, ctrl1Status := HAL_OK
          ctrl2Status := HAL_OK, ctrl3Status := HAL_OK }
        { accel_odr := 0x40, accel_fs := 0, gyro_odr := 0x40
          gyro_fs := 0, fifo_enable := 0 } initDriverState).1 = HAL_ERROR ∧
    (LSM6DSL_Init
        { whoAmIStatus := HAL_OK, whoAmIValue := 0x00
          softResetStatus := HAL_OK, ctrl1Status := HAL_OK
          ctrl2Status := HAL_OK, ctrl3Status := HAL_OK }
        { accel_odr := 0x40, accel_fs := 0, gyro_odr := 0x40
          gyro_fs := 0, fifo_enable := 0 } initDriverState).1 = HAL_ERROR := by
  exact ⟨rfl, rfl⟩

/-- C6 amended: when the identity register is read successfully but does
not equal 0x6A, `LSM6DSL_Init` returns `HAL_ERROR`; however a failed
identity-register bus read returns the same `HAL_ERROR`, so a caller
cannot tell a wrong-device condition apart from a bus failure on that
read from the returned status. -/
theorem C6_identity_mismatch (bus : InitBus) (config : LSM6DSL_Config)
    (s : DriverState) :
    (bus.whoAmIStatus = HAL_OK → bus.whoAmIValue ≠ LSM6DSL_WHO_AM_I_VALUE →
      (LSM6DSL_Init bus config s).1 = HAL_ERROR) ∧
    (bus.whoAmIStatus ≠ HAL_OK →
      (LSM6DSL_Init bus config s).1 = HAL_ERROR) := by
  constructor
  · intro h1 h2
    simp [LSM6DSL_Init, h2]
  · intro h1
    simp [LSM6DSL_Init, h1]

/-- C6 witness: at the two concrete inputs of the counterexample,
`LSM6DSL_Init` returns `HAL_ERROR` for the mismatched identity 0x00 and
`HAL_ERROR` for the timed-out identity read. -/
theorem C6_identity_mismatch_witness :
    (LSM6DSL_Init
        { whoAmIStatus := HAL_OK, whoAmIValue := 0x00
          softResetStatus := HAL_OK, ctrl1Status := HAL_OK
          ctrl2Status := HAL_OK, ctrl3Status := HAL_OK }
        { accel_odr := 0x40, accel_fs := 0, gyro_odr := 0x40
          gyro_fs := 0, fifo_enable := 0 } initDriverState).1 = HAL_ERROR ∧
    (LSM6DSL_Init
        { whoAmIStatus := HAL_TIMEOUT, whoAmIValue := 0
          softResetStatus := HAL_OK, ctrl1Status := HAL_OK
          ctrl2Status := HAL_OK, ctrl3Status := HAL_OK }
        { accel_odr := 0x40, accel_fs := 0, gyro_odr := 0x40
          gyro_fs := 0, fifo_enable := 0 } initDriverState).1 = HAL_ERROR := by
  constructor
  · exact (C6_identity_mismatch _ _ _).1 rfl (by decide)
  · exact (C6_identity_mismatch _ _ _).2 (by decide)

/-- C7: with data ready and an all-zero burst, the decoded temperature is
exactly 25 °C; with the temperature bytes low 0x00 / high 0x01 (raw
value 256) it is exactly 26 °C. -/
theorem C7_temperature_decode :
    (LSM6DSL_ReadData
        { statusReadStatus := HAL_OK, statusReg := 0x03
          burstStatus := HAL_OK, raw := fun _ => 0, tick := 0 }
        initDriverState
        { accel_x := 0, accel_y := 0, accel_z := 0, gyro_x := 0, gyro_y := 0
          gyro_z := 0, temperature := 0, timestamp := 0, data_ready := false
        }).2.temperature = 25 ∧
    (LSM6DSL_ReadData
        { statusReadStatus := HAL_OK, statusReg := 0x03
          burstStatus := HAL_OK, raw := fun i => if i.val = 1 then 1 else 0
          tick := 0 }
        initDriverState
        { accel_x := 0, accel_y := 0, accel_z := 0, gyro_x := 0, gyro_y := 0
          gyro_z := 0, temperature := 0, timestamp := 0, data_ready := false
        }).2.temperature = 26 := by
  have hcond : ¬ ((3:Nat) % 256 &&& (LSM6DSL_STATUS_XLDA ||| LSM6DSL_STATUS_GDA) = 0) := by
    decide
  constructor
  · norm_num [LSM6DSL_ReadData, toInt16, hcond]
  · norm_num [LSM6DSL_ReadData, toInt16, hcond]

/-- C10: calling `SensorAcq_GetStats` with a null output pointer writes
nothing through the pointer and leaves the statistics state unchanged. -/
theorem C10_getstats_null (s : SensorAcqStats) :
    SensorAcq_GetStats none s = (none, s) := rfl

/-- Helper: `LSM6DSL_Enable` passes the driver state through untouched
whatever the flag and write outcomes. -/
theorem LSM6DSL_Enable_state (bus : EnableBus) (en : Bool) (s : DriverState) :
    (LSM6DSL_Enable bus en s).2 = s := by
  cases en <;> simp [LSM6DSL_Enable] <;> split <;> rfl

/-- C8: for any write outcomes, the sequence `enable(true)`,
`enable(false)`, `enable(true)` leaves the cached sensitivity
coefficients exactly as they were before the sequence: enable toggling
never mutates the sensitivities chosen at the last initialization. -/
theorem C8_enable_preserves_sensitivity (b1 b2 b3 : EnableBus)
    (s : DriverState) :
    (LSM6DSL_Enable b3 true
        (LSM6DSL_Enable b2 false
          (LSM6DSL_Enable b1 true s).2).2).2 = s := by
  simp [LSM6DSL_Enable_state]

/-- C9: whenever `LSM6DSL_Init` returns anything other than `HAL_OK`,
the cached sensitivity coefficients are exactly what they were before
the call: the sensitivity update runs only after every register
operation of the initialization sequence has succeeded. -/
theorem C9_init_error_preserves_sensitivity (bus : InitBus)
    (config : LSM6DSL_Config) (s : DriverState)
    (h : (LSM6DSL_Init bus config s).1 ≠ HAL_OK) :
    (LSM6DSL_Init bus config s).2 = s := by
  unfold LSM6DSL_Init at h ⊢
  split_ifs at h ⊢ <;> first | rfl | exact absurd rfl h

/-- C9 witness: a concrete `LSM6DSL_Init` whose CTRL1_XL write times out
returns a non-`HAL_OK` status and leaves the initial driver state
unchanged. -/
theorem C9_init_error_preserves_sensitivity_witness :
    (LSM6DSL_Init
        { whoAmIStatus := HAL_OK, whoAmIValue := 0x6A
          softResetStatus := HAL_OK, ctrl1Status := HAL_TIMEOUT
          ctrl2Status := HAL_OK, ctrl3Status := HAL_OK }
        { accel_odr := 0x40, accel_fs := 0x08, gyro_odr := 0x40
          gyro_fs := 0x04, fifo_enable := 0 } initDriverState).1 ≠ HAL_OK ∧
    (LSM6DSL_Init
        { whoAmIStatus := HAL_OK, whoAmIValue := 0x6A
          softResetStatus := HAL_OK, ctrl1Status := HAL_TIMEOUT
          ctrl2Status := HAL_OK, ctrl3Status := HAL_OK }
        { accel_odr := 0x40, accel_fs := 0x08, gyro_odr := 0x40
          gyro_fs := 0x04, fifo_enable := 0 } initDriverState).2
      = initDriverState := by
  refine ⟨by decide, C9_init_error_preserves_sensitivity _ _ _ (by decide)⟩

/-- C3: when the status-register read succeeds, `LSM6DSL_ReadData`
returns `HAL_OK` with `data_ready = false` whenever neither the
accelerometer-data-available bit 0x01 nor the gyroscope bit 0x02 is set;
and when at least one of those bits is set and the 14-byte burst read
succeeds, it returns `HAL_OK` with `data_ready = true` and the fields
decoded in burst order — temperature low/high, gyro X/Y/Z low/high
pairs, accel X/Y/Z low/high pairs — each a little-endian signed 16-bit
value converted through the cached sensitivity coefficients. -/
theorem C3_read_sample (bus : ReadBus) (s : DriverState) (d : LSM6DSL_Data)
    (hst : bus.statusReadStatus = HAL_OK) :
    (bus.statusReg % 256 &&& (LSM6DSL_STATUS_XLDA ||| LSM6DSL_STATUS_GDA) = 0 →
      LSM6DSL_ReadData bus s d = (HAL_OK, { d with data_ready := false })) ∧
    (bus.statusReg % 256 &&& (LSM6DSL_STATUS_XLDA ||| LSM6DSL_STATUS_GDA) ≠ 0 →
      bus.burstStatus = HAL_OK →
      LSM6DSL_ReadData bus s d =
        (HAL_OK,
          { d with
            data_ready := true
            temperature := 25 + (toInt16 (bus.raw 0) (bus.raw 1) : ℚ) / 256
            accel_x := (toInt16 (bus.raw 8) (bus.raw 9) : ℚ) *
              s.accel_sensitivity * (980665/100000) / 1000
            accel_y := (toInt16 (bus.raw 10) (bus.raw 11) : ℚ) *
              s.accel_sensitivity * (980665/100000) / 1000
            accel_z := (toInt16 (bus.raw 12) (bus.raw 13) : ℚ) *
              s.accel_sensitivity * (980665/100000) / 1000
            gyro_x := (toInt16 (bus.raw 2) (bus.raw 3) : ℚ) *
              s.gyro_sensitivity * (314159/100000) / (180 * 1000)
            gyro_y := (toInt16 (bus.raw 4) (bus.raw 5) : ℚ) *
              s.gyro_sensitivity * (314159/100000) / (180 * 1000)
            gyro_z := (toInt16 (bus.raw 6) (bus.raw 7) : ℚ) *
              s.gyro_sensitivity * (314159/100000) / (180 * 1000)
            timestamp := bus.tick })) := by
  constructor
  · intro h0
    simp [LSM6DSL_ReadData, hst, h0]
  · intro h1 hb
    simp [LSM6DSL_ReadData, hst, h1, hb]

/-- C3 witness: with status byte 0x00 the concrete call returns `HAL_OK`
and `data_ready = false`; with status byte 0x02 (gyro data available)
and an all-zero burst it returns `HAL_OK`, `data_ready = true` and the
decoded zero sample at 25 °C. -/
theorem C3_read_sample_witness :
    (LSM6DSL_ReadData
        { statusReadStatus := HAL_OK, statusReg := 0x00
          burstStatus := HAL_OK, raw := fun _ => 0, tick := 5 }
        initDriverState
        { accel_x := 0, accel_y := 0, accel_z := 0, gyro_x := 0, gyro_y := 0
          gyro_z := 0, temperature := 0, timestamp := 0, data_ready := true } =
      (HAL_OK,
        { accel_x := 0, accel_y := 0, accel_z := 0, gyro_x := 0, gyro_y := 0
          gyro_z := 0, temperature := 0, timestamp := 0, data_ready := false })) ∧
    (LSM6DSL_ReadData
        { statusReadStatus := HAL_OK, statusReg := 0x02
          burstStatus := HAL_OK, raw := fun _ => 0, tick := 5 }
        initDriverState
        { accel_x := 0, accel_y := 0, accel_z := 0, gyro_x := 0, gyro_y := 0
          gyro_z := 0, temperature := 0, timestamp := 0, data_ready := false } =
      (HAL_OK,
        { accel_x := 0, accel_y := 0, accel_z := 0, gyro_x := 0, gyro_y := 0
          gyro_z := 0, temperature := 25, timestamp := 5, data_ready := true })) := by
  constructor
  · exact (C3_read_sample _ initDriverState _ rfl).1 (by decide)
  · have h := (C3_read_sample
      { statusReadStatus := HAL_OK, statusReg := 0x02
        burstStatus := HAL_OK, raw := fun _ => 0, tick := 5 }
      initDriverState
      { accel_x := 0, accel_y := 0, accel_z := 0, gyro_x := 0, gyro_y := 0
        gyro_z := 0, temperature := 0, timestamp := 0, data_ready := false }
      rfl).2 (by decide) rfl
    simpa [toInt16, initDriverState] using h

/-- Helper: statistics update bumps the sample counter, records the
timestamp, and leaves error counter, lifecycle state, retry counter and
the enabled flag alone, whichever side of the 1-second window boundary
the cycle falls on. -/
theorem SensorAcq_UpdateStats_fields (time : Nat) (t : TaskState) :
    (SensorAcq_UpdateStats time t).stats.total_samples = t.stats.total_samples + 1 ∧
    (SensorAcq_UpdateStats time t).stats.error_count = t.stats.error_count ∧
    (SensorAcq_UpdateStats time t).stats.last_sample_time = time ∧
    (SensorAcq_UpdateStats time t).stats.state = t.stats.state ∧
    (SensorAcq_UpdateStats time t).retry_count = t.retry_count ∧
    (SensorAcq_UpdateStats time t).enabled = t.enabled := by
  unfold SensorAcq_UpdateStats
  dsimp only
  split <;> simp

/-- Helper: a failing cycle strictly below the retry threshold only
bumps the retry and error counters. -/
theorem cycle_fail_below (env : CycleEnv) (t : TaskState)
    (hen : t.enabled = true) (himu : env.imuStatus ≠ HAL_OK)
    (hr : t.retry_count + 1 < SENSOR_MAX_RETRY_COUNT) :
    sensorAcqCycle env t =
      { t with
        retry_count := t.retry_count + 1
        stats := { t.stats with error_count := t.stats.error_count + 1 } } := by
  unfold sensorAcqCycle
  simp [hen, himu, Nat.not_le.mpr hr]

/-- Helper: the failing cycle that reaches the threshold zeroes the
retry counter and the statistics and attempts reinitialization within
the same cycle; its outcome decides the lifecycle state at cycle end. -/
theorem cycle_fail_at_threshold (env : CycleEnv) (t : TaskState)
    (hen : t.enabled = true) (himu : env.imuStatus ≠ HAL_OK)
    (hr : t.retry_count = 2) :
    sensorAcqCycle env t =
      if env.reinitStatus = HAL_OK then
        { t with
          retry_count := 0
          stats := { total_samples := 0, error_count := 0, last_sample_time := 0
                     sample_rate := 0, state := SensorAcqState.SENSOR_ACQ_RUNNING } }
      else
        { t with
          retry_count := 0
          stats := { total_samples := 0, error_count := 0, last_sample_time := 0
                     sample_rate := 0, state := SensorAcqState.SENSOR_ACQ_ERROR } } := by
  unfold sensorAcqCycle SensorAcq_Init
  simp [hen, himu, hr, SENSOR_MAX_RETRY_COUNT]
  split <;> simp

/-- C2 counterexample: the claim says that after exactly 3 consecutive
cycle failures the state is `Error` with the reinitialization only
attempted on the next cycle; but in the per-cycle step relation, with a
reinitialization available that succeeds, the state at the end of the
third failing cycle is already `SENSOR_ACQ_RUNNING` — the reattempt
happened inside that same cycle, not the next. -/
theorem C2_reinit_same_cycle_counterexample :
    (sensorAcqCycle { time := 30, imuStatus := HAL_TIMEOUT, enqueueOk := true, reinitStatus := HAL_OK }
      (sensorAcqCycle { time := 20, imuStatus := HAL_TIMEOUT, enqueueOk := true, reinitStatus := HAL_OK }
        (sensorAcqCycle { time := 10, imuStatus := HAL_TIMEOUT, enqueueOk := true, reinitStatus := HAL_OK }
          { stats := { total_samples := 5, error_count := 0, last_sample_time := 0
                       sample_rate := 0, state := SensorAcqState.SENSOR_ACQ_RUNNING }
            retry_count := 0, enabled := true, last_stats_update := 0
            sample_count_in_period := 0 }))).stats.state
      = SensorAcqState.SENSOR_ACQ_RUNNING ∧
    SensorAcqState.SENSOR_ACQ_RUNNING ≠ SensorAcqState.SENSOR_ACQ_ERROR := by
  exact ⟨rfl, by decide⟩

/-- C2 amended: starting from any enabled state with the
consecutive-failure counter at 0, the first two consecutive cycle
failures leave the lifecycle state unchanged while counting up; on the
third consecutive failure — within that same cycle, not the next — the
state transitions to `Error`, the counter is reset, and a full driver
reinitialization is attempted immediately: if it succeeds the state is
`Running` at the end of that cycle, and if it fails the state remains
`Error`. -/
theorem C2_failure_threshold (t : TaskState) (e1 e2 e3 : CycleEnv)
    (h0 : t.retry_count = 0) (hen : t.enabled = true)
    (hf1 : e1.imuStatus ≠ HAL_OK) (hf2 : e2.imuStatus ≠ HAL_OK)
    (hf3 : e3.imuStatus ≠ HAL_OK) :
    (sensorAcqCycle e1 t).stats.state = t.stats.state ∧
    (sensorAcqCycle e1 t).retry_count = 1 ∧
    (sensorAcqCycle e2 (sensorAcqCycle e1 t)).stats.state = t.stats.state ∧
    (sensorAcqCycle e2 (sensorAcqCycle e1 t)).retry_count = 2 ∧
    (sensorAcqCycle e3 (sensorAcqCycle e2 (sensorAcqCycle e1 t))).retry_count = 0 ∧
    (e3.reinitStatus = HAL_OK →
      (sensorAcqCycle e3 (sensorAcqCycle e2 (sensorAcqCycle e1 t))).stats.state
        = SensorAcqState.SENSOR_ACQ_RUNNING) ∧
    (e3.reinitStatus ≠ HAL_OK →
      (sensorAcqCycle e3 (sensorAcqCycle e2 (sensorAcqCycle e1 t))).stats.state
        = SensorAcqState.SENSOR_ACQ_ERROR) := by
  have h1 := cycle_fail_below e1 t hen hf1
    (by simp [h0, SENSOR_MAX_RETRY_COUNT])
  rw [h1, h0]
  have h2 := cycle_fail_below e2
    { t with retry_count := 0 + 1
             stats := { t.stats with error_count := t.stats.error_count + 1 } }
    (by simpa using hen) hf2 (by simp [SENSOR_MAX_RETRY_COUNT])
  rw [h2]
  have h3 := cycle_fail_at_threshold e3
    { t with retry_count := 0 + 1 + 1
             stats := { t.stats with error_count := t.stats.error_count + 1 + 1 } }
    (by simpa using hen) hf3 (by simp)
  rw [h3]
  refine ⟨by simp, by simp, by simp, by simp, ?_, ?_, ?_⟩
  · split <;> simp
  · intro h
    simp [h]
  · intro h
    simp [h]

/-- C2 witness: a concrete three-failure trace with a failing
reinitialization leaves the state at `SENSOR_ACQ_ERROR` with the retry
counter reset at the end of the third cycle. -/
theorem C2_failure_threshold_witness :
    (sensorAcqCycle { time := 30, imuStatus := HAL_ERROR, enqueueOk := true, reinitStatus := HAL_ERROR }
      (sensorAcqCycle { time := 20, imuStatus := HAL_ERROR, enqueueOk := true, reinitStatus := HAL_ERROR }
        (sensorAcqCycle { time := 10, imuStatus := HAL_ERROR, enqueueOk := true, reinitStatus := HAL_ERROR }
          { stats := { total_samples := 4, error_count := 1, last_sample_time := 3
                       sample_rate := 0, state := SensorAcqState.SENSOR_ACQ_RUNNING }
            retry_count := 0, enabled := true, last_stats_update := 0
            sample_count_in_period := 0 }))).retry_count = 0 ∧
    (sensorAcqCycle { time := 30, imuStatus := HAL_ERROR, enqueueOk := true, reinitStatus := HAL_ERROR }
      (sensorAcqCycle { time := 20, imuStatus := HAL_ERROR, enqueueOk := true, reinitStatus := HAL_ERROR }
        (sensorAcqCycle { time := 10, imuStatus := HAL_ERROR, enqueueOk := true, reinitStatus := HAL_ERROR }
          { stats := { total_samples := 4, error_count := 1, last_sample_time := 3
                       sample_rate := 0, state := SensorAcqState.SENSOR_ACQ_RUNNING }
            retry_count := 0, enabled := true, last_stats_update := 0
            sample_count_in_period := 0 }))).stats.state
      = SensorAcqState.SENSOR_ACQ_ERROR := by
  have h := C2_failure_threshold
    { stats := { total_samples := 4, error_count := 1, last_sample_time := 3
                 sample_rate := 0, state := SensorAcqState.SENSOR_ACQ_RUNNING }
      retry_count := 0, enabled := true, last_stats_update := 0
      sample_count_in_period := 0 }
    { time := 10, imuStatus := HAL_ERROR, enqueueOk := true, reinitStatus := HAL_ERROR }
    { time := 20, imuStatus := HAL_ERROR, enqueueOk := true, reinitStatus := HAL_ERROR }
    { time := 30, imuStatus := HAL_ERROR, enqueueOk := true, reinitStatus := HAL_ERROR }
    rfl rfl (by decide) (by decide) (by decide)
  exact ⟨h.2.2.2.2.1, h.2.2.2.2.2.2 (by decide)⟩

/-- C4: in an enabled cycle where every sensor read succeeds but the
enqueue into the output queue fails, the total error counter goes up by
exactly one, the consecutive-failure counter is reset to 0 (in
particular it is not incremented), the lifecycle state is untouched —
so a failed enqueue alone can never produce the `Error` transition —
and the cycle still counts as a successful sample (so no
reinitialization zeroed the statistics). -/
theorem C4_enqueue_fail_soft (env : CycleEnv) (t : TaskState)
    (hen : t.enabled = true) (himu : env.imuStatus = HAL_OK)
    (henq : env.enqueueOk = false) :
    (sensorAcqCycle env t).stats.error_count = t.stats.error_count + 1 ∧
    (sensorAcqCycle env t).retry_count = 0 ∧
    (sensorAcqCycle env t).retry_count ≠ t.retry_count + 1 ∧
    (sensorAcqCycle env t).stats.state = t.stats.state ∧
    (sensorAcqCycle env t).stats.total_samples = t.stats.total_samples + 1 := by
  have h := SensorAcq_UpdateStats_fields env.time
    { t with retry_count := 0
             stats := { t.stats with error_count := t.stats.error_count + 1 } }
  unfold sensorAcqCycle
  simp only [hen, himu, henq] at *
  simp at h ⊢
  refine ⟨h.2.1, h.2.2.2.2.1, ?_, h.2.2.2.1, h.1⟩
  rw [h.2.2.2.2.1]
  omega

/-- C4 witness: a concrete enabled cycle with a successful read chain
and a full queue bumps the error counter 2 → 3, resets the retry
counter, leaves the state `SENSOR_ACQ_RUNNING` and counts the sample. -/
theorem C4_enqueue_fail_soft_witness :
    (sensorAcqCycle { time := 40, imuStatus := HAL_OK, enqueueOk := false, reinitStatus := HAL_OK }
      { stats := { total_samples := 7, error_count := 2, last_sample_time := 30
                   sample_rate := 0, state := SensorAcqState.SENSOR_ACQ_RUNNING }
        retry_count := 1, enabled := true, last_stats_update := 0
        sample_count_in_period := 3 }).stats.error_count = 3 ∧
    (sensorAcqCycle { time := 40, imuStatus := HAL_OK, enqueueOk := false, reinitStatus := HAL_OK }
      { stats := { total_samples := 7, error_count := 2, last_sample_time := 30
                   sample_rate := 0, state := SensorAcqState.SENSOR_ACQ_RUNNING }
        retry_count := 1, enabled := true, last_stats_update := 0
        sample_count_in_period := 3 }).stats.state
      = SensorAcqState.SENSOR_ACQ_RUNNING ∧
    (sensorAcqCycle { time := 40, imuStatus := HAL_OK, enqueueOk := false, reinitStatus := HAL_OK }
      { stats := { total_samples := 7, error_count := 2, last_sample_time := 30
                   sample_rate := 0, state := SensorAcqState.SENSOR_ACQ_RUNNING }
        retry_count := 1, enabled := true, last_stats_update := 0
        sample_count_in_period := 3 }).stats.total_samples = 8 := by
  have h := C4_enqueue_fail_soft
    { time := 40, imuStatus := HAL_OK, enqueueOk := false, reinitStatus := HAL_OK }
    { stats := { total_samples := 7, error_count := 2, last_sample_time := 30
                 sample_rate := 0, state := SensorAcqState.SENSOR_ACQ_RUNNING }
      retry_count := 1, enabled := true, last_stats_update := 0
      sample_count_in_period := 3 }
    rfl rfl rfl
  exact ⟨h.1, h.2.2.2.1, h.2.2.2.2⟩

end RTOS
